import Mathlib

/-!
Shallow embedding of `python/pip_install/tools/dependency_resolver/dependency_resolver.py`
(a wrapper that runs pip-compile under Bazel, in UPDATE or CHECK mode).

Modelling conventions:
* A file system is a partial map from path strings to file content, where
  content is the list of lines returned by Python `readlines()`.
* The external resolver (`piptools.scripts.compile.cli`) is opaque: the
  `Config` record carries how it terminates (`cliRes`: normal return, or
  `SystemExit` with an integer code) and what content, if any, it writes to
  the `--output-file` path handed to it (`cliWrite`).  The argv bookkeeping
  that merely forwards flags to the opaque resolver (`--cache-dir`,
  `--output-file`, the resolved input path) is absorbed into that contract.
* `os.path.join`, `os.path.basename` and `os.path.samefile` are generic
  file-system primitives (external collaborators); they are carried as
  function-valued parameters of `Config` so runs stay executable.
* Python `print(...)` goes to a stdout trace, `print(..., file=sys.stderr)`
  to a stderr trace.  An uncaught exception terminates the interpreter with
  exit code 1; we model its traceback as a single stderr line naming the
  exception.
* Environment-variable writes (`LC_ALL`, `LANG`, `CUSTOM_COMPILE_COMMAND`,
  `PIP_CONFIG_FILE`) do not affect any verified claim and are not modelled.
-/

/-- File system: path to optional file content (list of lines). -/
abbrev FS := String → Option (List String)

/-- Write a file: content `c` at path `p`, everything else unchanged. -/
def setFile (fs : FS) (p : String) (c : List String) : FS :=
  fun q => if q = p then some c else fs q

/-- Per-string path-separator normalization: Python `v.replace("\\", "/")`
applied to the characters of a provenance string. -/
def normalizeSep (s : List Char) : List Char :=
  s.map fun c => if c = '\\' then '/' else c

/-- The shared body of the two patched annotation-style functions:
`required_by = set([v.replace("\\", "/") for v in required_by])`.
The Python `set(...)` constructor is modelled as `List.toFinset`. -/
def normalizeRequiredBy (required_by : List (List Char)) : Finset (List Char) :=
  (required_by.map normalizeSep).toFinset

/-- Patched `annotation_style_split`: normalizes the provenance set, then
delegates to the original piptools writer function (opaque parameter). -/
def annotation_style_split (original : Finset (List Char) → String)
    (required_by : List (List Char)) : String :=
  original (normalizeRequiredBy required_by)

/-- Patched `annotation_style_line`: normalizes the provenance set, then
delegates to the original piptools writer function (opaque parameter). -/
def annotation_style_line (original : Finset (List Char) → String)
    (required_by : List (List Char)) : String :=
  original (normalizeRequiredBy required_by)

/-- Model of `shutil.copy src dst` on the file-system map: fails (exception)
when the source is missing, otherwise writes the source content at the
destination and leaves the source untouched. -/
def shutil_copy (fs : FS) (src dst : String) : Option FS :=
  match fs src with
  | none => none
  | some c => some (setFile fs dst c)

/-- Line 28 of the source: `os.replace = shutil.copy`.  The globally
installed replacement for the replace/move primitive is exactly the copy
primitive. -/
def os_replace : FS → String → String → Option FS := shutil_copy

/-- Model of the original `os.replace` (rename/move) semantics that the
patch displaces: the source file is removed when the move succeeds to a
distinct destination. -/
def os_replace_rename (fs : FS) (src dst : String) : Option FS :=
  match fs src with
  | none => none
  | some c => some (fun q => if q = dst then some c else if q = src then none else fs q)

/-- Sentinel parsing: `lambda s: None if s == "None" else s`. -/
def parse_str_none (s : String) : Option String :=
  if s = "None" then none else some s

/-- Model of `_select_golden_requirements_file`: the if/elif/else chain on
`sys.platform` with `is not None` tests on the overrides. -/
def _select_golden_requirements_file (plat requirements_txt : String)
    (requirements_linux requirements_darwin requirements_windows : Option String) : String :=
  if plat = "linux" ∧ requirements_linux.isSome then
    requirements_linux.getD requirements_txt
  else if plat = "darwin" ∧ requirements_darwin.isSome then
    requirements_darwin.getD requirements_txt
  else if plat = "win32" ∧ requirements_windows.isSome then
    requirements_windows.getD requirements_txt
  else requirements_txt

/-- Length of the longest common prefix of two line sequences. -/
def commonPrefixLen : List String → List String → Nat
  | a :: as, b :: bs => if a = b then commonPrefixLen as bs + 1 else 0
  | _, _ => 0

/-- Modelled from the spec: `difflib.unified_diff` is Python standard
library code, not part of this repository; the spec requires only that the
emitted diff "contains every differing line from both sides".  We model it
as a single-hunk unified diff: the common prefix and the common suffix of
golden and candidate are elided as context, every remaining golden line is
emitted with a "-" marker and every remaining candidate line with a "+"
marker; on equal inputs the diff is empty, as difflib produces no output
there.  File headers and hunk-range lines are omitted as irrelevant to the
verified property. -/
def unified_diff (golden out : List String) : List String :=
  if golden = out then []
  else
    ((golden.drop (commonPrefixLen golden out)).take
        ((golden.drop (commonPrefixLen golden out)).length -
          commonPrefixLen (golden.drop (commonPrefixLen golden out)).reverse
            (out.drop (commonPrefixLen golden out)).reverse)).map (fun l => "-" ++ l) ++
    ((out.drop (commonPrefixLen golden out)).take
        ((out.drop (commonPrefixLen golden out)).length -
          commonPrefixLen (golden.drop (commonPrefixLen golden out)).reverse
            (out.drop (commonPrefixLen golden out)).reverse)).map (fun l => "+" ++ l)

/-- How the opaque resolver `cli()` terminates: `SystemExit code`, or a
normal return without terminating the process. -/
inductive CliRes where
  | exit (code : Int)
  | ret
deriving DecidableEq

/-- Terminal outcome of one run, the spec RunOutcome enum mapped onto the
terminal branches of `__main__`, extended with the branches the source
actually has: a usage-guard failure, an uncaught Python exception, and the
UPDATE-mode branch where the resolver SystemExit propagates unhandled. -/
inductive Outcome where
  | Updated
  | Verified
  | Stale
  | ResolutionConflict
  | UnexpectedFailure
  | InvocationError
  | Crash
  | ResolverPassthrough (code : Int)
deriving DecidableEq

/-- Inputs of one run: argv (including the program name), the environment
variables the script reads, `sys.platform`, the initial file system, the
opaque file-system primitives, and the opaque resolver behaviour. -/
structure Config where
  argv : List String
  test_tmpdir : Option String
  build_workspace_directory : Option String
  custom_compile_command : Option String
  plat : String
  fs : FS
  samefile : String → String → Bool
  joinPath : String → String → String
  basename : String → String
  cliRes : CliRes
  cliWrite : Option (List String)

/-- Observable result of one run: process exit code, outcome tag, the two
output streams, whether `cli()` was invoked, and the final file system. -/
structure RunResult where
  exitCode : Int
  outcome : Outcome
  stdout : List String
  stderr : List String
  invoked : Bool
  fs : FS

/-- Usage message printed by the argv guard. -/
def usageMsg : String :=
  "Expected at least two arguments: requirements_in requirements_out"

/-- Stderr message of the `e.code == 2` branch. -/
def conflictMsg (requirements_in : String) : String :=
  "pip-compile exited with code 2. This means that pip-compile found incompatible requirements or could not find a version that matches the install requirement in " ++ requirements_in ++ "."

/-- Stderr message of the catch-all SystemExit branch. -/
def unexpectedMsg (code : Int) : String :=
  "pip-compile unexpectedly exited with code " ++ toString code ++ "."

/-- Remediation message printed in the Stale branch. -/
def staleMsg (cmd : String) : String :=
  "Lock file out of date. Run \x27" ++ cmd ++ "\x27 to update."

/-- Model of `os.getenv("CUSTOM_COMPILE_COMMAND") or "bazel run %s" % (update_target_label,)`,
including Python falsiness of the empty string. -/
def update_command_of (cc : Option String) (update_target_label : String) : String :=
  match cc with
  | some c => if c = "" then "bazel run " ++ update_target_label else c
  | none => "bazel run " ++ update_target_label

/-- Model of the six `sys.argv.pop(1)` calls: succeeds only when argv has a
program name plus at least six arguments; otherwise Python raises
`IndexError`.  The three override tokens go through `parse_str_none`. -/
def parseArgs (argv : List String) :
    Option (String × String × Option String × Option String × Option String × String) :=
  match argv with
  | _ :: a1 :: a2 :: a3 :: a4 :: a5 :: a6 :: _ =>
      some (a1, a2, parse_str_none a3, parse_str_none a4, parse_str_none a5, a6)
  | _ => none

/-- The scratch output path of CHECK mode:
`os.path.join(TEST_TMPDIR, os.path.basename(requirements_txt) + ".out")`. -/
def scratchPath (cfg : Config) (tmp requirements_txt : String) : String :=
  cfg.joinPath tmp (cfg.basename requirements_txt ++ ".out")

/-- File-system effect of the CHECK branch up to and including the resolver
invocation: the scratch output is pre-seeded with a copy of the committed
file, and the resolver then writes the candidate there when it produces
one. -/
def checkFs (cfg : Config) (tmp requirements_txt : String) (seed : List String) : FS :=
  match cfg.cliWrite with
  | some cand => setFile (setFile cfg.fs (scratchPath cfg tmp requirements_txt) seed)
      (scratchPath cfg tmp requirements_txt) cand
  | none => setFile cfg.fs (scratchPath cfg tmp requirements_txt) seed

/-- The live-workspace path `os.path.join(BUILD_WORKSPACE_DIRECTORY, requirements_txt)`. -/
def treePath (cfg : Config) (w requirements_txt : String) : String :=
  cfg.joinPath w requirements_txt

/-- File-system effect of the UPDATE branch: the resolver writes the
candidate to the committed path; when a live-tree copy-back was registered
(workspace marker set and the two paths are not the same file), it runs at
interpreter exit and copies the committed file to the live tree; a copy
whose source is missing raises inside atexit, which the interpreter
swallows. -/
def updateFs (cfg : Config) (requirements_txt : String) : FS :=
  match cfg.build_workspace_directory with
  | some w =>
      if cfg.samefile requirements_txt (treePath cfg w requirements_txt) then
        match cfg.cliWrite with
        | some cand => setFile cfg.fs requirements_txt cand
        | none => cfg.fs
      else
        match cfg.cliWrite with
        | some cand =>
            setFile (setFile cfg.fs requirements_txt cand)
              (treePath cfg w requirements_txt) cand
        | none =>
            match cfg.fs requirements_txt with
            | some c => setFile cfg.fs (treePath cfg w requirements_txt) c
            | none => cfg.fs
  | none =>
      match cfg.cliWrite with
      | some cand => setFile cfg.fs requirements_txt cand
      | none => cfg.fs

/-- UPDATE branch of `__main__`: print "Updating", register the live-tree
copy-back when `BUILD_WORKSPACE_DIRECTORY` is set and the two paths are not
the same file, then run `cli()` with `--output-file requirements_txt`; the
resolver either terminates the process (its SystemExit propagates
unhandled, so its code becomes the process exit code) or returns normally
(the script falls off the end, exit 0); the registered atexit copy-back
runs at interpreter exit in both cases. -/
def runUpdate (cfg : Config) (requirements_txt : String) : RunResult :=
  match cfg.cliRes with
  | CliRes.exit c =>
      { exitCode := c
        outcome := if c = 0 then Outcome.Updated else Outcome.ResolverPassthrough c
        stdout := ["Updating " ++ requirements_txt]
        stderr := []
        invoked := true
        fs := updateFs cfg requirements_txt }
  | CliRes.ret =>
      { exitCode := 0
        outcome := Outcome.Updated
        stdout := ["Updating " ++ requirements_txt]
        stderr := []
        invoked := true
        fs := updateFs cfg requirements_txt }

/-- CHECK branch of `__main__` (`TEST_TMPDIR` present): pre-seed the
scratch output by `shutil.copy` from the committed file (an uncaught
`FileNotFoundError` if it is missing), run `cli()` with `--output-file`
pointing at the scratch, and classify its termination: a normal return is
itself an error ("cli() should exit"), code 2 is a resolution conflict,
code 0 leads to the golden/candidate line comparison read back from disk,
and any other code is unexpected. -/
def runCheck (cfg : Config) (tmp requirements_in requirements_txt : String)
    (requirements_linux requirements_darwin requirements_windows : Option String)
    (update_target_label : String) : RunResult :=
  match cfg.fs requirements_txt with
  | none =>
      { exitCode := 1, outcome := Outcome.Crash, stdout := []
        stderr := ["Traceback: FileNotFoundError: " ++ requirements_txt]
        invoked := false, fs := cfg.fs }
  | some seed =>
      match cfg.cliRes with
      | CliRes.ret =>
          { exitCode := 1, outcome := Outcome.UnexpectedFailure
            stdout := ["Checking " ++ requirements_txt]
            stderr := ["cli() should exit"]
            invoked := true
            fs := checkFs cfg tmp requirements_txt seed }
      | CliRes.exit c =>
          if c = 2 then
            { exitCode := 1, outcome := Outcome.ResolutionConflict
              stdout := ["Checking " ++ requirements_txt]
              stderr := [conflictMsg requirements_in]
              invoked := true
              fs := checkFs cfg tmp requirements_txt seed }
          else if c = 0 then
            match
              checkFs cfg tmp requirements_txt seed
                (_select_golden_requirements_file cfg.plat requirements_txt
                  requirements_linux requirements_darwin requirements_windows),
              checkFs cfg tmp requirements_txt seed (scratchPath cfg tmp requirements_txt) with
            | some golden, some out =>
                if golden = out then
                  { exitCode := 0, outcome := Outcome.Verified
                    stdout := ["Checking " ++ requirements_txt]
                    stderr := []
                    invoked := true
                    fs := checkFs cfg tmp requirements_txt seed }
                else
                  { exitCode := 1, outcome := Outcome.Stale
                    stdout := ["Checking " ++ requirements_txt]
                    stderr := unified_diff golden out ++
                      [staleMsg (update_command_of cfg.custom_compile_command update_target_label)]
                    invoked := true
                    fs := checkFs cfg tmp requirements_txt seed }
            | _, _ =>
                { exitCode := 1, outcome := Outcome.Crash
                  stdout := ["Checking " ++ requirements_txt]
                  stderr := ["Traceback: FileNotFoundError"]
                  invoked := true
                  fs := checkFs cfg tmp requirements_txt seed }
          else
            { exitCode := 1, outcome := Outcome.UnexpectedFailure
              stdout := ["Checking " ++ requirements_txt]
              stderr := [unexpectedMsg c]
              invoked := true
              fs := checkFs cfg tmp requirements_txt seed }

/-- Entry point of `__main__`: argv guard (`len(sys.argv) < 4`), the six
pops, then dispatch on the `TEST_TMPDIR` mode marker. -/
def run (cfg : Config) : RunResult :=
  if cfg.argv.length < 4 then
    { exitCode := 1, outcome := Outcome.InvocationError, stdout := []
      stderr := [usageMsg], invoked := false, fs := cfg.fs }
  else
    match parseArgs cfg.argv with
    | none =>
        { exitCode := 1, outcome := Outcome.Crash, stdout := []
          stderr := ["Traceback: IndexError: pop index out of range"]
          invoked := false, fs := cfg.fs }
    | some (rin, rtxt, rl, rd, rw, tgt) =>
        match cfg.test_tmpdir with
        | some tmp => runCheck cfg tmp rin rtxt rl rd rw tgt
        | none => runUpdate cfg rtxt

/-! ### Helper lemmas about the diff model -/

lemma commonPrefixLen_le_left (a : List String) : ∀ b : List String, commonPrefixLen a b ≤ a.length := by
  induction a with
  | nil => intro b; cases b <;> simp [commonPrefixLen]
  | cons x xs ih =>
      intro b
      cases b with
      | nil => simp [commonPrefixLen]
      | cons y ys =>
          by_cases h : x = y
          · simpa [commonPrefixLen, h] using ih ys
          · simp [commonPrefixLen, h]

lemma commonPrefixLen_le_right (a : List String) : ∀ b : List String, commonPrefixLen a b ≤ b.length := by
  induction a with
  | nil => intro b; cases b <;> simp [commonPrefixLen]
  | cons x xs ih =>
      intro b
      cases b with
      | nil => simp [commonPrefixLen]
      | cons y ys =>
          by_cases h : x = y
          · simpa [commonPrefixLen, h] using ih ys
          · simp [commonPrefixLen, h]

lemma commonPrefixLen_take_eq (a : List String) :
    ∀ b : List String, a.take (commonPrefixLen a b) = b.take (commonPrefixLen a b) := by
  induction a with
  | nil => intro b; cases b <;> simp [commonPrefixLen]
  | cons x xs ih =>
      intro b
      cases b with
      | nil => simp [commonPrefixLen]
      | cons y ys =>
          by_cases h : x = y
          · simp [commonPrefixLen, h, ih ys]
          · simp [commonPrefixLen, h]

lemma mem_drop_commonSuffix_left (a b : List String) (l : String)
    (h : l ∈ a.drop (a.length - commonPrefixLen a.reverse b.reverse)) : l ∈ b := by
  have hs : commonPrefixLen a.reverse b.reverse ≤ a.length := by
    simpa using commonPrefixLen_le_left a.reverse b.reverse
  have hrev : l ∈ (a.drop (a.length - commonPrefixLen a.reverse b.reverse)).reverse :=
    List.mem_reverse.mpr h
  rw [List.reverse_drop, Nat.sub_sub_self hs] at hrev
  rw [commonPrefixLen_take_eq a.reverse b.reverse] at hrev
  exact List.mem_reverse.mp (List.take_subset _ _ hrev)

lemma mem_drop_commonSuffix_right (a b : List String) (l : String)
    (h : l ∈ b.drop (b.length - commonPrefixLen a.reverse b.reverse)) : l ∈ a := by
  have hs : commonPrefixLen a.reverse b.reverse ≤ b.length := by
    simpa using commonPrefixLen_le_right a.reverse b.reverse
  have hrev : l ∈ (b.drop (b.length - commonPrefixLen a.reverse b.reverse)).reverse :=
    List.mem_reverse.mpr h
  rw [List.reverse_drop, Nat.sub_sub_self hs] at hrev
  rw [← commonPrefixLen_take_eq a.reverse b.reverse] at hrev
  exact List.mem_reverse.mp (List.take_subset _ _ hrev)

lemma mem_unified_diff_minus (golden out : List String) (l : String)
    (hg : l ∈ golden) (ho : l ∉ out) : ("-" ++ l) ∈ unified_diff golden out := by
  have hne : golden ≠ out := by intro h; exact ho (h ▸ hg)
  unfold unified_diff
  rw [if_neg hne]
  refine List.mem_append_left _ ?_
  refine List.mem_map_of_mem _ ?_
  have hsplit : l ∈ golden.take (commonPrefixLen golden out) ++
      golden.drop (commonPrefixLen golden out) := by
    rw [List.take_append_drop]; exact hg
  have hg1 : l ∈ golden.drop (commonPrefixLen golden out) := by
    rcases List.mem_append.mp hsplit with h1 | h2
    · exfalso
      apply ho
      rw [commonPrefixLen_take_eq golden out] at h1
      exact List.take_subset _ _ h1
    · exact h2
  have hsplit2 : l ∈ (golden.drop (commonPrefixLen golden out)).take
      ((golden.drop (commonPrefixLen golden out)).length -
        commonPrefixLen (golden.drop (commonPrefixLen golden out)).reverse
          (out.drop (commonPrefixLen golden out)).reverse) ++
      (golden.drop (commonPrefixLen golden out)).drop
      ((golden.drop (commonPrefixLen golden out)).length -
        commonPrefixLen (golden.drop (commonPrefixLen golden out)).reverse
          (out.drop (commonPrefixLen golden out)).reverse) := by
    rw [List.take_append_drop]; exact hg1
  rcases List.mem_append.mp hsplit2 with h1 | h2
  · exact h1
  · exfalso
    apply ho
    exact List.drop_subset _ _
      (mem_drop_commonSuffix_left (golden.drop (commonPrefixLen golden out))
        (out.drop (commonPrefixLen golden out)) l h2)

lemma mem_unified_diff_plus (golden out : List String) (l : String)
    (ho : l ∈ out) (hg : l ∉ golden) : ("+" ++ l) ∈ unified_diff golden out := by
  have hne : golden ≠ out := by intro h; exact hg (h ▸ ho)
  unfold unified_diff
  rw [if_neg hne]
  refine List.mem_append_right _ ?_
  refine List.mem_map_of_mem _ ?_
  have hsplit : l ∈ out.take (commonPrefixLen golden out) ++
      out.drop (commonPrefixLen golden out) := by
    rw [List.take_append_drop]; exact ho
  have ho1 : l ∈ out.drop (commonPrefixLen golden out) := by
    rcases List.mem_append.mp hsplit with h1 | h2
    · exfalso
      apply hg
      rw [← commonPrefixLen_take_eq golden out] at h1
      exact List.take_subset _ _ h1
    · exact h2
  have hsplit2 : l ∈ (out.drop (commonPrefixLen golden out)).take
      ((out.drop (commonPrefixLen golden out)).length -
        commonPrefixLen (golden.drop (commonPrefixLen golden out)).reverse
          (out.drop (commonPrefixLen golden out)).reverse) ++
      (out.drop (commonPrefixLen golden out)).drop
      ((out.drop (commonPrefixLen golden out)).length -
        commonPrefixLen (golden.drop (commonPrefixLen golden out)).reverse
          (out.drop (commonPrefixLen golden out)).reverse) := by
    rw [List.take_append_drop]; exact ho1
  rcases List.mem_append.mp hsplit2 with h1 | h2
  · exact h1
  · exfalso
    apply hg
    exact List.drop_subset _ _
      (mem_drop_commonSuffix_right (golden.drop (commonPrefixLen golden out))
        (out.drop (commonPrefixLen golden out)) l h2)

/-! ### Claims about PathNormalizer and GoldenSelector -/

/-- Claim C7: path-separator normalization is idempotent, and its output
contains no backslash at all, for every provenance string. -/
theorem pathNormalizer_idempotent (s : List Char) :
    normalizeSep (normalizeSep s) = normalizeSep s ∧
    ((normalizeSep s).all fun c => c != '\\') = true := by
  constructor
  · have hcomp : ((fun c => if c = '\\' then '/' else c) ∘
        (fun c : Char => if c = '\\' then '/' else c)) =
        (fun c : Char => if c = '\\' then '/' else c) := by
      funext c
      by_cases h : c = '\\'
      · subst h; decide
      · simp [h]
    simp [normalizeSep, List.map_map, hcomp]
  · rw [List.all_eq_true]
    intro c hc
    obtain ⟨a, _, rfl⟩ := List.mem_map.mp hc
    by_cases h : a = '\\'
    · subst h; decide
    · simp [h]

/-- Claim C6 counterexample: the normalization step of the patched
annotation-style functions is not dedup-free; two distinct provenance
entries that coincide after backslash rewriting collapse to a single
element of the set handed to the original writer function. -/
theorem provenance_dedup_cex :
    normalizeSep ['a', '\\', 'b'] = normalizeSep ['a', '/', 'b'] ∧
    (['a', '\\', 'b'] : List Char) ≠ ['a', '/', 'b'] ∧
    (normalizeRequiredBy [['a', '\\', 'b'], ['a', '/', 'b']]).card = 1 := by
  decide

/-- Claim C6 (amended): the normalization step rewrites every backslash of
every entry to a forward slash and performs no per-character transformation
other than that (positionally: each character is kept unless it is a
backslash), but it collects the results into a set, so entries that
coincide after rewriting are deduplicated (the set is no larger than the
input list, contains exactly the normalized entries, and loses the input
ordering). -/
theorem provenance_normalization_set (required_by : List (List Char)) :
    (∀ s, s ∈ required_by → normalizeSep s ∈ normalizeRequiredBy required_by) ∧
    (∀ t, t ∈ normalizeRequiredBy required_by → ∃ s, s ∈ required_by ∧ normalizeSep s = t) ∧
    (normalizeRequiredBy required_by).card ≤ required_by.length ∧
    (∀ s : List Char, ∀ i : Nat,
      (normalizeSep s)[i]? = s[i]?.map fun c => if c = '\\' then '/' else c) := by
  refine ⟨?_, ?_, ?_, ?_⟩
  · intro s hs
    exact List.mem_toFinset.mpr (List.mem_map_of_mem _ hs)
  · intro t ht
    obtain ⟨s, hs, rfl⟩ := List.mem_map.mp (List.mem_toFinset.mp ht)
    exact ⟨s, hs, rfl⟩
  · calc (normalizeRequiredBy required_by).card
        ≤ (required_by.map normalizeSep).length := List.toFinset_card_le _
      _ = required_by.length := List.length_map _ _
  · intro s i
    simp [normalizeSep, List.getElem?_map]

/-- Witness for the amended C6 theorem at a concrete input. -/
theorem provenance_normalization_set_w :
    normalizeSep ['a', '\\'] ∈ normalizeRequiredBy [['a', '\\']] :=
  (provenance_normalization_set [['a', '\\']]).1 ['a', '\\'] (by simp)

/-- Claim C4: golden-file selection returns the platform override exactly
when the platform matches and the override is present, the base path in
every other case; and the literal token "None" parses to an absent
override, any other token to a present one. -/
theorem golden_selector_rules (plat base : String) (lin dar win : Option String) :
    (plat = "linux" → ∀ p, lin = some p →
      _select_golden_requirements_file plat base lin dar win = p) ∧
    (plat = "darwin" → ∀ p, dar = some p →
      _select_golden_requirements_file plat base lin dar win = p) ∧
    (plat = "win32" → ∀ p, win = some p →
      _select_golden_requirements_file plat base lin dar win = p) ∧
    (¬(plat = "linux" ∧ lin.isSome) → ¬(plat = "darwin" ∧ dar.isSome) →
      ¬(plat = "win32" ∧ win.isSome) →
      _select_golden_requirements_file plat base lin dar win = base) ∧
    parse_str_none "None" = none ∧
    (∀ s : String, s ≠ "None" → parse_str_none s = some s) := by
  refine ⟨?_, ?_, ?_, ?_, ?_, ?_⟩
  · intro h p hp
    subst h; subst hp
    simp [_select_golden_requirements_file]
  · intro h p hp
    subst h; subst hp
    have h1 : ¬(("darwin" : String) = "linux" ∧ lin.isSome) := by
      rintro ⟨h1, -⟩; exact absurd h1 (by decide)
    simp [_select_golden_requirements_file, h1]
  · intro h p hp
    subst h; subst hp
    have h1 : ¬(("win32" : String) = "linux" ∧ lin.isSome) := by
      rintro ⟨h1, -⟩; exact absurd h1 (by decide)
    have h2 : ¬(("win32" : String) = "darwin" ∧ dar.isSome) := by
      rintro ⟨h1, -⟩; exact absurd h1 (by decide)
    simp [_select_golden_requirements_file, h1, h2]
  · intro h1 h2 h3
    simp only [_select_golden_requirements_file, if_neg h1, if_neg h2, if_neg h3]
  · decide
  · intro s h
    simp [parse_str_none, h]

/-- Witness for the C4 theorem: on Linux with a Linux override supplied,
the override is selected. -/
theorem golden_selector_rules_w :
    _select_golden_requirements_file "linux" "base.txt"
      (some "linux.txt") none none = "linux.txt" :=
  (golden_selector_rules "linux" "base.txt" (some "linux.txt") none none).1 rfl "linux.txt" rfl

/-! ### Claim about the os.replace monkey-patch -/

/-- Claim C10: the globally installed replacement for `os.replace` is
`shutil.copy`; a successful call copies the source content to the
destination and the source still exists with its prior content afterwards,
whereas the displaced rename primitive would have removed the source. -/
theorem os_replace_keeps_source (fs : FS) (src dst : String) (c : List String)
    (h : fs src = some c) :
    (∃ fs2, os_replace fs src dst = some fs2 ∧ fs2 src = some c ∧ fs2 dst = some c) ∧
    (src ≠ dst → ∀ fs3, os_replace_rename fs src dst = some fs3 → fs3 src = none) := by
  constructor
  · refine ⟨setFile fs dst c, ?_, ?_, ?_⟩
    · unfold os_replace shutil_copy
      rw [h]
    · unfold setFile
      by_cases hd : src = dst <;> simp [hd, h]
    · unfold setFile
      simp
  · intro hne fs3 h3
    unfold os_replace_rename at h3
    rw [h] at h3
    have h4 := Option.some.inj h3
    rw [← h4]
    simp [hne]

/-- Concrete file system used by witnesses. -/
def fsW : FS := fun p => if p = "a.txt" then some ["x\n"] else none

/-- Witness for the C10 theorem at a concrete file system. -/
theorem os_replace_keeps_source_w :
    ∃ fs2, os_replace fsW "a.txt" "b.txt" = some fs2 ∧
      fs2 "a.txt" = some ["x\n"] ∧ fs2 "b.txt" = some ["x\n"] :=
  (os_replace_keeps_source fsW "a.txt" "b.txt" ["x\n"] rfl).1

/-! ### Dispatch lemmas for the run state machine -/

lemma run_eq_check (cfg : Config) (prog rin rtxt rl rd rw tgt : String)
    (rest : List String) (tmp : String)
    (hargv : cfg.argv = prog :: rin :: rtxt :: rl :: rd :: rw :: tgt :: rest)
    (hmode : cfg.test_tmpdir = some tmp) :
    run cfg = runCheck cfg tmp rin rtxt (parse_str_none rl) (parse_str_none rd)
      (parse_str_none rw) tgt := by
  have hlen : ¬ cfg.argv.length < 4 := by
    rw [hargv]
    simp [List.length_cons]
  unfold run
  rw [if_neg hlen, hargv, hmode]
  rfl

lemma run_eq_update (cfg : Config) (prog rin rtxt rl rd rw tgt : String)
    (rest : List String)
    (hargv : cfg.argv = prog :: rin :: rtxt :: rl :: rd :: rw :: tgt :: rest)
    (hmode : cfg.test_tmpdir = none) :
    run cfg = runUpdate cfg rtxt := by
  have hlen : ¬ cfg.argv.length < 4 := by
    rw [hargv]
    simp [List.length_cons]
  unfold run
  rw [if_neg hlen, hargv, hmode]
  rfl

lemma checkFs_frame (cfg : Config) (tmp rtxt : String) (seed : List String) (p : String)
    (hp : p ≠ scratchPath cfg tmp rtxt) :
    checkFs cfg tmp rtxt seed p = cfg.fs p := by
  unfold checkFs setFile
  cases cfg.cliWrite <;> simp [hp]

lemma checkFs_scratch_some (cfg : Config) (tmp rtxt : String) (seed cand : List String)
    (hw : cfg.cliWrite = some cand) :
    checkFs cfg tmp rtxt seed (scratchPath cfg tmp rtxt) = some cand := by
  unfold checkFs setFile
  rw [hw]
  simp

lemma runCheck_exit0 (cfg : Config) (tmp rin rtxt : String)
    (rl rd rw : Option String) (tgt : String) (seed cand gold : List String)
    (hseed : cfg.fs rtxt = some seed)
    (hcli : cfg.cliRes = CliRes.exit 0)
    (hw : cfg.cliWrite = some cand)
    (hgoldread : checkFs cfg tmp rtxt seed
      (_select_golden_requirements_file cfg.plat rtxt rl rd rw) = some gold) :
    runCheck cfg tmp rin rtxt rl rd rw tgt =
      if gold = cand then
        { exitCode := 0, outcome := Outcome.Verified, stdout := ["Checking " ++ rtxt]
          stderr := [], invoked := true, fs := checkFs cfg tmp rtxt seed }
      else
        { exitCode := 1, outcome := Outcome.Stale, stdout := ["Checking " ++ rtxt]
          stderr := unified_diff gold cand ++
            [staleMsg (update_command_of cfg.custom_compile_command tgt)]
          invoked := true, fs := checkFs cfg tmp rtxt seed } := by
  have hscr := checkFs_scratch_some cfg tmp rtxt seed cand hw
  simp only [runCheck, hseed, hcli]
  rw [if_pos trivial, hgoldread, hscr]
  by_cases h : gold = cand <;> simp [h]

/-! ### CHECK-mode claim theorems -/

/-- Claim C1: in a CHECK run whose resolver terminates with code 0, equal
golden and candidate line sequences give exit 0 (Verified) with nothing on
the error stream; differing sequences give exit 1 (Stale), an error-stream
unified diff of golden versus candidate that contains every differing line
from both sides, and a remediation message carrying the update command. -/
theorem check_compare_verdict (cfg : Config) (prog rin rtxt rl rd rw tgt : String)
    (rest : List String) (tmp : String) (seed cand gold : List String)
    (hargv : cfg.argv = prog :: rin :: rtxt :: rl :: rd :: rw :: tgt :: rest)
    (hmode : cfg.test_tmpdir = some tmp)
    (hseed : cfg.fs rtxt = some seed)
    (hcli : cfg.cliRes = CliRes.exit 0)
    (hw : cfg.cliWrite = some cand)
    (hne : _select_golden_requirements_file cfg.plat rtxt (parse_str_none rl)
      (parse_str_none rd) (parse_str_none rw) ≠ scratchPath cfg tmp rtxt)
    (hgold : cfg.fs (_select_golden_requirements_file cfg.plat rtxt (parse_str_none rl)
      (parse_str_none rd) (parse_str_none rw)) = some gold) :
    (gold = cand →
      (run cfg).exitCode = 0 ∧ (run cfg).outcome = Outcome.Verified ∧
      (run cfg).stderr = []) ∧
    (gold ≠ cand →
      (run cfg).exitCode = 1 ∧ (run cfg).outcome = Outcome.Stale ∧
      (run cfg).stderr = unified_diff gold cand ++
        [staleMsg (update_command_of cfg.custom_compile_command tgt)] ∧
      (∀ l, l ∈ gold → l ∉ cand → ("-" ++ l) ∈ unified_diff gold cand) ∧
      (∀ l, l ∈ cand → l ∉ gold → ("+" ++ l) ∈ unified_diff gold cand)) := by
  have hgoldread : checkFs cfg tmp rtxt seed
      (_select_golden_requirements_file cfg.plat rtxt (parse_str_none rl)
        (parse_str_none rd) (parse_str_none rw)) = some gold := by
    rw [checkFs_frame cfg tmp rtxt seed _ hne]
    exact hgold
  have hrun : run cfg = _ :=
    (run_eq_check cfg prog rin rtxt rl rd rw tgt rest tmp hargv hmode).trans
      (runCheck_exit0 cfg tmp rin rtxt (parse_str_none rl) (parse_str_none rd)
        (parse_str_none rw) tgt seed cand gold hseed hcli hw hgoldread)
  constructor
  · intro heq
    rw [hrun, if_pos heq]
    exact ⟨rfl, rfl, rfl⟩
  · intro hneq
    rw [hrun, if_neg hneq]
    exact ⟨rfl, rfl, rfl,
      fun l hl hnl => mem_unified_diff_minus gold cand l hl hnl,
      fun l hl hnl => mem_unified_diff_plus gold cand l hl hnl⟩

/-- Claim C2 (amended): in CHECK mode, with the committed file readable so
the resolver is reached, a resolver SystemExit code of exactly 2 yields
ResolutionConflict (exit 1 with the conflict guidance message), any other
nonzero code yields UnexpectedFailure (exit 1), and a normal return of the
resolver without terminating the process also yields UnexpectedFailure
(exit 1). -/
theorem check_termination_classification (cfg : Config)
    (prog rin rtxt rl rd rw tgt : String) (rest : List String)
    (tmp : String) (seed : List String)
    (hargv : cfg.argv = prog :: rin :: rtxt :: rl :: rd :: rw :: tgt :: rest)
    (hmode : cfg.test_tmpdir = some tmp)
    (hseed : cfg.fs rtxt = some seed) :
    (cfg.cliRes = CliRes.exit 2 →
      (run cfg).outcome = Outcome.ResolutionConflict ∧ (run cfg).exitCode = 1 ∧
      (run cfg).stderr = [conflictMsg rin]) ∧
    (∀ c : Int, cfg.cliRes = CliRes.exit c → c ≠ 2 → c ≠ 0 →
      (run cfg).outcome = Outcome.UnexpectedFailure ∧ (run cfg).exitCode = 1 ∧
      (run cfg).stderr = [unexpectedMsg c]) ∧
    (cfg.cliRes = CliRes.ret →
      (run cfg).outcome = Outcome.UnexpectedFailure ∧ (run cfg).exitCode = 1 ∧
      (run cfg).stderr = ["cli() should exit"]) := by
  have hrc := run_eq_check cfg prog rin rtxt rl rd rw tgt rest tmp hargv hmode
  refine ⟨?_, ?_, ?_⟩
  · intro h2
    rw [hrc]
    simp [runCheck, hseed, h2]
  · intro c hc h2 h0
    rw [hrc]
    simp only [runCheck, hseed, hc]
    rw [if_neg h2, if_neg h0]
    exact ⟨rfl, rfl, rfl⟩
  · intro h
    rw [hrc]
    simp [runCheck, hseed, h]

/-! ### CHECK-mode frame property (claim C5) -/

lemma runCheck_frame (cfg : Config) (tmp rin rtxt : String)
    (rl rd rw : Option String) (tgt : String) (p : String)
    (hp : p ≠ scratchPath cfg tmp rtxt) :
    (runCheck cfg tmp rin rtxt rl rd rw tgt).fs p = cfg.fs p := by
  unfold runCheck
  repeat' split
  all_goals simp [checkFs_frame cfg tmp rtxt _ p hp]

/-- Claim C5: a CHECK run writes only to the scratch output location; every
path other than the scratch path, in particular the selected golden
reference when it differs from the scratch path, has identical content
before and after the run. -/
theorem check_never_mutates_golden (cfg : Config)
    (prog rin rtxt rl rd rw tgt : String) (rest : List String) (tmp : String)
    (hargv : cfg.argv = prog :: rin :: rtxt :: rl :: rd :: rw :: tgt :: rest)
    (hmode : cfg.test_tmpdir = some tmp) :
    (∀ p, p ≠ scratchPath cfg tmp rtxt → (run cfg).fs p = cfg.fs p) ∧
    (_select_golden_requirements_file cfg.plat rtxt (parse_str_none rl)
        (parse_str_none rd) (parse_str_none rw) ≠ scratchPath cfg tmp rtxt →
      (run cfg).fs (_select_golden_requirements_file cfg.plat rtxt (parse_str_none rl)
        (parse_str_none rd) (parse_str_none rw)) =
      cfg.fs (_select_golden_requirements_file cfg.plat rtxt (parse_str_none rl)
        (parse_str_none rd) (parse_str_none rw))) := by
  have hrc := run_eq_check cfg prog rin rtxt rl rd rw tgt rest tmp hargv hmode
  constructor
  · intro p hp
    rw [hrc]
    exact runCheck_frame cfg tmp rin rtxt (parse_str_none rl) (parse_str_none rd)
      (parse_str_none rw) tgt p hp
  · intro hne
    rw [hrc]
    exact runCheck_frame cfg tmp rin rtxt (parse_str_none rl) (parse_str_none rd)
      (parse_str_none rw) tgt _ hne

/-! ### Exit-code mapping (claim C3) -/

lemma runCheck_exit_characterization (cfg : Config) (tmp rin rtxt : String)
    (rl rd rw : Option String) (tgt : String) :
    ((runCheck cfg tmp rin rtxt rl rd rw tgt).exitCode = 0 ∧
      (runCheck cfg tmp rin rtxt rl rd rw tgt).outcome = Outcome.Verified) ∨
    ((runCheck cfg tmp rin rtxt rl rd rw tgt).exitCode = 1 ∧
      (runCheck cfg tmp rin rtxt rl rd rw tgt).outcome ≠ Outcome.Verified) := by
  unfold runCheck
  repeat' split
  all_goals simp

lemma run_check_cases (cfg : Config) (tmp : String) (hmode : cfg.test_tmpdir = some tmp) :
    ((run cfg).exitCode = 0 ∧ (run cfg).outcome = Outcome.Verified) ∨
    ((run cfg).exitCode = 1 ∧ (run cfg).outcome ≠ Outcome.Verified) := by
  unfold run
  split
  · right
    exact ⟨rfl, by simp⟩
  · split
    · right
      exact ⟨rfl, by simp⟩
    · rw [hmode]
      exact runCheck_exit_characterization cfg tmp _ _ _ _ _ _

/-- Claim C3 (amended): CHECK-mode runs always exit 0 or 1, with 0 exactly
on Verified; a malformed invocation exits 1; but in UPDATE mode the
resolver's own SystemExit propagates unhandled, so the process exit code
equals the resolver's termination code (0 exactly when the outcome is
Updated, any other code passed through unclassified). -/
theorem exit_code_mapping (cfg : Config) (prog rin rtxt rl rd rw tgt : String)
    (rest : List String) (tmp : String) (c : Int) :
    (cfg.test_tmpdir = some tmp →
      ((run cfg).exitCode = 0 ∧ (run cfg).outcome = Outcome.Verified) ∨
      ((run cfg).exitCode = 1 ∧ (run cfg).outcome ≠ Outcome.Verified)) ∧
    (cfg.argv.length < 4 →
      (run cfg).exitCode = 1 ∧ (run cfg).outcome = Outcome.InvocationError) ∧
    (cfg.argv = prog :: rin :: rtxt :: rl :: rd :: rw :: tgt :: rest →
      cfg.test_tmpdir = none → cfg.cliRes = CliRes.exit c →
      (run cfg).exitCode = c ∧
      (c = 0 → (run cfg).outcome = Outcome.Updated) ∧
      (c ≠ 0 → (run cfg).outcome = Outcome.ResolverPassthrough c)) := by
  refine ⟨?_, ?_, ?_⟩
  · intro hmode
    exact run_check_cases cfg tmp hmode
  · intro hlen
    unfold run
    rw [if_pos hlen]
    exact ⟨rfl, rfl⟩
  · intro hargv hmode hcli
    rw [run_eq_update cfg prog rin rtxt rl rd rw tgt rest hargv hmode]
    simp only [runUpdate, hcli]
    refine ⟨by simp, ?_, ?_⟩
    · intro h0
      simp [h0]
    · intro hn0
      simp [hn0]

/-! ### UPDATE-mode copy-back (claim C9) -/

/-- Claim C9: in an UPDATE run with the live-workspace marker set, the
committed path not the same underlying file as the live-workspace path,
and the resolver writing the fresh lock content, the registered copy-back
runs at process exit, so afterwards the live-workspace file holds exactly
the freshly written committed content, whatever way the resolver
terminated. -/
theorem update_copy_back (cfg : Config) (prog rin rtxt rl rd rw tgt : String)
    (rest : List String) (w : String) (cand : List String)
    (hargv : cfg.argv = prog :: rin :: rtxt :: rl :: rd :: rw :: tgt :: rest)
    (hmode : cfg.test_tmpdir = none)
    (hw : cfg.build_workspace_directory = some w)
    (hsf : cfg.samefile rtxt (treePath cfg w rtxt) = false)
    (hwrite : cfg.cliWrite = some cand) :
    (run cfg).fs (treePath cfg w rtxt) = some cand ∧
    (run cfg).fs rtxt = some cand ∧
    (run cfg).fs (treePath cfg w rtxt) = (run cfg).fs rtxt := by
  rw [run_eq_update cfg prog rin rtxt rl rd rw tgt rest hargv hmode]
  have hup : updateFs cfg rtxt = setFile (setFile cfg.fs rtxt cand) (treePath cfg w rtxt) cand := by
    unfold updateFs
    simp only [hw, hsf, hwrite, Bool.false_eq_true, if_false]
  have hfs : (runUpdate cfg rtxt).fs = setFile (setFile cfg.fs rtxt cand) (treePath cfg w rtxt) cand := by
    unfold runUpdate
    cases cfg.cliRes <;> simpa using hup
  rw [hfs]
  have h1 : setFile (setFile cfg.fs rtxt cand) (treePath cfg w rtxt) cand (treePath cfg w rtxt) = some cand := by
    simp [setFile]
  have h2 : setFile (setFile cfg.fs rtxt cand) (treePath cfg w rtxt) cand rtxt = some cand := by
    unfold setFile
    by_cases h : rtxt = treePath cfg w rtxt
    · rw [if_pos h]
    · rw [if_neg h, if_pos rfl]
  exact ⟨h1, h2, h1.trans h2.symm⟩

/-! ### Invocation guard (claim C8) -/

lemma parseArgs_none_iff (argv : List String) : parseArgs argv = none ↔ argv.length < 7 := by
  rcases argv with _ | ⟨a0, _ | ⟨a1, _ | ⟨a2, _ | ⟨a3, _ | ⟨a4, _ | ⟨a5, _ | ⟨a6, rest⟩⟩⟩⟩⟩⟩⟩ <;>
    simp [parseArgs]

/-- Claim C8 (amended): the usage error is printed only when fewer than
three positional arguments are given (the guard is `len(sys.argv) < 4`);
with at least three but fewer than six positional arguments the run still
exits 1 without invoking the resolver, but through an uncaught IndexError
from the argument pops, with no usage message; the pops need six
arguments. -/
theorem invocation_guard (cfg : Config) :
    (cfg.argv.length < 4 →
      run cfg = { exitCode := 1, outcome := Outcome.InvocationError, stdout := []
                  stderr := [usageMsg], invoked := false, fs := cfg.fs }) ∧
    (4 ≤ cfg.argv.length → parseArgs cfg.argv = none →
      (run cfg).exitCode = 1 ∧ (run cfg).outcome = Outcome.Crash ∧
      (run cfg).invoked = false ∧ usageMsg ∉ (run cfg).stderr ∧ (run cfg).fs = cfg.fs) ∧
    (parseArgs cfg.argv = none ↔ cfg.argv.length < 7) := by
  refine ⟨?_, ?_, ?_⟩
  · intro hlen
    unfold run
    rw [if_pos hlen]
  · intro hlen hnone
    unfold run
    rw [if_neg (by omega : ¬ cfg.argv.length < 4), hnone]
    refine ⟨rfl, rfl, rfl, ?_, rfl⟩
    simp [usageMsg]
  · exact parseArgs_none_iff cfg.argv

/-! ### Concrete configurations for witnesses and counterexamples -/

/-- Concrete initial file system: one committed lock file. -/
def fs0 : FS := fun p => if p = "req.txt" then some ["a\n"] else none

/-- Concrete CHECK-mode configuration: well-formed argv, sandbox marker
set, resolver succeeds with code 0 and writes the same single line the
committed file holds. -/
def cfg0 : Config :=
  { argv := ["prog", "in.txt", "req.txt", "None", "None", "None", "//:pin"]
    test_tmpdir := some "/tmp"
    build_workspace_directory := none
    custom_compile_command := none
    plat := "linux"
    fs := fs0
    samefile := fun _ _ => false
    joinPath := fun a b => a ++ "/" ++ b
    basename := fun p => p
    cliRes := CliRes.exit 0
    cliWrite := some ["a\n"] }

/-- CHECK-mode configuration whose resolver exits with code 2. -/
def cfg2 : Config := { cfg0 with cliRes := CliRes.exit 2 }

/-- UPDATE-mode configuration whose resolver exits with code 2. -/
def cfgPass2 : Config := { cfg0 with test_tmpdir := none, cliRes := CliRes.exit 2 }

/-- UPDATE-mode configuration whose resolver exits with code 3. -/
def cfgPass3 : Config := { cfg0 with test_tmpdir := none, cliRes := CliRes.exit 3 }

/-- Configuration invoked with a single positional argument. -/
def cfgShort : Config := { cfg0 with argv := ["prog"] }

/-- Configuration invoked with three positional arguments. -/
def cfgThree : Config := { cfg0 with argv := ["prog", "a", "b", "c"] }

/-- UPDATE-mode configuration with the live-workspace marker set. -/
def cfgUp : Config :=
  { cfg0 with test_tmpdir := none, build_workspace_directory := some "/ws" }

/-- Witness for the C1 theorem: concrete Verified CHECK run exits 0. -/
theorem check_compare_verdict_w : (run cfg0).exitCode = 0 :=
  ((check_compare_verdict cfg0 "prog" "in.txt" "req.txt" "None" "None" "None" "//:pin" []
    "/tmp" ["a\n"] ["a\n"] ["a\n"] rfl rfl rfl rfl rfl (by decide) (by decide)).1 rfl).1

/-- Witness for the amended C2 theorem: a concrete CHECK run whose
resolver exits 2 is classified as a resolution conflict. -/
theorem check_termination_classification_w :
    (run cfg2).outcome = Outcome.ResolutionConflict :=
  ((check_termination_classification cfg2 "prog" "in.txt" "req.txt" "None" "None" "None"
    "//:pin" [] "/tmp" ["a\n"] rfl rfl rfl).1 rfl).1

/-- Claim C2 counterexample: in an UPDATE run the resolver terminating
with code 2 is not classified as ResolutionConflict at all; no conflict
guidance is printed and the exit code 2 passes straight through. -/
theorem update_passthrough_cex :
    (run cfgPass2).outcome = Outcome.ResolverPassthrough 2 ∧
    (run cfgPass2).outcome ≠ Outcome.ResolutionConflict ∧
    (run cfgPass2).exitCode = 2 ∧
    (run cfgPass2).stderr = [] := by
  decide

/-- Witness for the amended C3 theorem at the concrete CHECK configuration. -/
theorem exit_code_mapping_w :
    ((run cfg0).exitCode = 0 ∧ (run cfg0).outcome = Outcome.Verified) ∨
    ((run cfg0).exitCode = 1 ∧ (run cfg0).outcome ≠ Outcome.Verified) :=
  (exit_code_mapping cfg0 "prog" "in.txt" "req.txt" "None" "None" "None" "//:pin" []
    "/tmp" 0).1 rfl

/-- Claim C3 counterexample: an UPDATE run whose resolver exits 3 makes
the process exit with code 3, which is neither 0 nor 1. -/
theorem exit_code_passthrough_cex :
    (run cfgPass3).exitCode = 3 ∧
    ¬((run cfgPass3).exitCode = 0 ∨ (run cfgPass3).exitCode = 1) := by
  decide

/-- Witness for the C5 theorem: the committed golden file of the concrete
CHECK run is unchanged. -/
theorem check_never_mutates_golden_w :
    (run cfg0).fs "req.txt" = cfg0.fs "req.txt" :=
  (check_never_mutates_golden cfg0 "prog" "in.txt" "req.txt" "None" "None" "None" "//:pin"
    [] "/tmp" rfl rfl).1 "req.txt" (by decide)

/-- Witness for the amended C8 theorem: one positional argument triggers
the usage error. -/
theorem invocation_guard_w :
    run cfgShort = { exitCode := 1, outcome := Outcome.InvocationError, stdout := []
                     stderr := [usageMsg], invoked := false, fs := cfgShort.fs } :=
  (invocation_guard cfgShort).1 (by decide)

/-- Claim C8 counterexample: three positional arguments (fewer than the
six required) pass the guard and crash in the argument pops: the exit is
nonzero and the resolver is not invoked, but no usage message is printed. -/
theorem usage_guard_cex :
    (run cfgThree).outcome = Outcome.Crash ∧
    usageMsg ∉ (run cfgThree).stderr ∧
    (run cfgThree).exitCode = 1 ∧
    (run cfgThree).invoked = false := by
  decide

/-- Witness for the C9 theorem: the live-workspace copy of the concrete
UPDATE run holds the freshly written lock content. -/
theorem update_copy_back_w :
    (run cfgUp).fs (treePath cfgUp "/ws" "req.txt") = some ["a\n"] :=
  (update_copy_back cfgUp "prog" "in.txt" "req.txt" "None" "None" "None" "//:pin" []
    "/ws" ["a\n"] rfl rfl rfl rfl rfl).1
